import Mathlib

/-!
Shallow embedding of `src/oracle/src/services/amqpClient.js` (tokenbridge oracle
AMQP client): connection probe, the three role constructors (watcher, sender,
worker), and the delayed-retry / transaction-resend schedulers.

Channel interactions are embedded as traces of `ChannelOp` values: each call the
JavaScript code makes on an AMQP channel (assertExchange, assertQueue, bindQueue,
prefetch, consume, sendToQueue, ack, nack) becomes one trace element, so the
declarations, their options and their order mirror the source line by line.
External collaborators (the DNS resolver, the URL host parser, the pluggable
`getRetrySequence` backoff policy, the `TRANSACTION_RESEND_TIMEOUT` constant)
are taken as parameters, since they live outside this source file.
-/

set_option autoImplicit false

namespace AmqpClient

/-- Options passed to `channel.assertQueue`, mirroring the option objects in the
source: `durable`, and optionally `deadLetterExchange`, `messageTtl` (ms) and
`expires` (queue auto-delete after inactivity, ms). -/
structure AssertQueueOpts where
  durable : Bool
  deadLetterExchange : Option String := none
  messageTtl : Option Nat := none
  expires : Option Nat := none
  deriving DecidableEq, Repr

/-- Options passed to `channelWrapper.sendToQueue`: `persistent`, plus the
header map (retry counts are natural numbers). -/
structure PublishOpts where
  persistent : Bool
  headers : List (String × Nat) := []
  deriving DecidableEq, Repr

/-- One call made on an AMQP channel by the client code. Payloads are the
JSON-encoded bodies (the channels are created with `json: true`). -/
inductive ChannelOp where
  | assertExchange (name kind : String) (durable : Bool)
  | assertQueue (name : String) (opts : AssertQueueOpts)
  | bindQueue (queue exchange : String)
  | prefetch (n : Nat)
  | consume (queue : String)
  | sendToQueue (queue : String) (data : String) (opts : PublishOpts)
  | ack (tag : Nat)
  | nack (tag : Nat) (allUpTo requeue : Bool)
  deriving DecidableEq, Repr

/-- The dead-letter exchange name both consumer roles derive from the work
queue name: `` `${queueName}-retry` ``. -/
def deadLetterExchangeName (queueName : String) : String :=
  queueName ++ "-retry"

/-- `isAttached()`. The environment variable `ORACLE_QUEUE_URL` is `none` when
unset; `!url` in JavaScript is also true for the empty string. `parseHostname`
stands for `new url.URL(u).hostname`, returning `none` when the constructor
throws on an unparseable URL (modelled as `Except.error`); `dnsLookupOk` stands
for the `dns.lookup` callback receiving `err === null`. -/
def isAttached (oracleQueueUrl : Option String)
    (parseHostname : String → Option String)
    (dnsLookupOk : String → Bool) : Except String Bool :=
  if oracleQueueUrl.getD "" = "" then
    Except.ok false
  else
    match parseHostname (oracleQueueUrl.getD "") with
    | none => Except.error "Invalid URL"
    | some amqpHost => Except.ok (dnsLookupOk amqpHost)

/-- `generateRetry`: increments the retry count, computes the delay (ms) from
the pluggable backoff policy (`getRetrySequence`, supplied here as `backoff`),
idempotently declares the delay-keyed retry queue and publishes the payload
into it. Returns the trace of channel calls, in source order. -/
def generateRetry (backoff : Nat → Nat) (data : String) (msgRetries : Nat)
    (queueName deadLetterExchange : String) : List ChannelOp :=
  let retries := msgRetries + 1
  let delay := backoff retries * 1000
  let retryQueue := queueName ++ "-retry-" ++ toString delay
  [ ChannelOp.assertQueue retryQueue
      { durable := true
        deadLetterExchange := some deadLetterExchange
        messageTtl := some delay
        expires := some (delay * 10) },
    ChannelOp.sendToQueue retryQueue data
      { persistent := true
        headers := [("x-retries", retries)] } ]

/-- `generateTransactionResend`: declares the single fixed
`` `${queueName}-check-tx-status` `` queue with the fixed
`TRANSACTION_RESEND_TIMEOUT` TTL (taken as the parameter `resendTimeout`, since
the constant lives in `utils/constants`) and publishes the payload with no
headers. Returns the trace of channel calls, in source order. -/
def generateTransactionResend (resendTimeout : Nat) (data : String)
    (queueName deadLetterExchange : String) : List ChannelOp :=
  let retryQueue := queueName ++ "-check-tx-status"
  [ ChannelOp.assertQueue retryQueue
      { durable := true
        deadLetterExchange := some deadLetterExchange
        messageTtl := some resendTimeout
        expires := some (resendTimeout * 10) },
    ChannelOp.sendToQueue retryQueue data { persistent := true } ]

/-- `connectWatcherToQueue` setup routine: asserts each queue of
`queueList = workerQueue ? [queueName, workerQueue] : [queueName]` durable. -/
def connectWatcherToQueueSetup (queueName : String)
    (workerQueue : Option String) : List ChannelOp :=
  (match workerQueue with
   | some w => [queueName, w]
   | none => [queueName]).map
    (fun queue => ChannelOp.assertQueue queue { durable := true })

/-- The watcher's `sendToQueue` closure: publishes to `queueName` with
`persistent: true`. -/
def watcherSendToQueue (queueName data : String) : ChannelOp :=
  ChannelOp.sendToQueue queueName data { persistent := true }

/-- The watcher's `sendToWorker` closure: only defined (`let sendToWorker` is
assigned) when a `workerQueue` was supplied; publishes to it persistently. -/
def watcherSendToWorker (workerQueue : Option String) :
    Option (String → ChannelOp) :=
  workerQueue.map
    (fun w => fun data => ChannelOp.sendToQueue w data { persistent := true })

/-- `connectSenderToQueue` setup routine: dead-letter exchange (fanout,
durable), durable work queue, queue→exchange binding, prefetch 1, consume. -/
def connectSenderToQueueSetup (queueName : String) : List ChannelOp :=
  [ ChannelOp.assertExchange (deadLetterExchangeName queueName) "fanout" true,
    ChannelOp.assertQueue queueName { durable := true },
    ChannelOp.bindQueue queueName (deadLetterExchangeName queueName),
    ChannelOp.prefetch 1,
    ChannelOp.consume queueName ]

/-- `connectWorkerToQueue` setup routine: as the sender's, plus the durable
`senderQueue`, in source order. -/
def connectWorkerToQueueSetup (queueName senderQueue : String) :
    List ChannelOp :=
  [ ChannelOp.assertExchange (deadLetterExchangeName queueName) "fanout" true,
    ChannelOp.assertQueue queueName { durable := true },
    ChannelOp.assertQueue senderQueue { durable := true },
    ChannelOp.bindQueue queueName (deadLetterExchangeName queueName),
    ChannelOp.prefetch 1,
    ChannelOp.consume queueName ]

/-- The property names of the object `connectSenderToQueue` passes to its
consumer callback `cb`. -/
def senderCbKeys : List String :=
  ["msg", "channel", "ackMsg", "nackMsg", "scheduleForRetry",
   "scheduleTransactionResend"]

/-- The property names of the object `connectWorkerToQueue` passes to its
consumer callback `cb`. -/
def workerCbKeys : List String :=
  ["msg", "channel", "ackMsg", "nackMsg", "sendToSenderQueue",
   "scheduleForRetry"]

/-- The worker's `sendToSenderQueue` closure: publishes persistently to the
sender queue. -/
def workerSendToSenderQueue (senderQueue data : String) : ChannelOp :=
  ChannelOp.sendToQueue senderQueue data { persistent := true }

/-- The `ackMsg` capability of both consumer roles:
`job => channelWrapper.ack(job)`. -/
def ackMsg (tag : Nat) : ChannelOp :=
  ChannelOp.ack tag

/-- The `nackMsg` capability of both consumer roles:
`job => channelWrapper.nack(job, false, true)` — `allUpTo = false`,
`requeue = true`. -/
def nackMsg (tag : Nat) : ChannelOp :=
  ChannelOp.nack tag false true

/-- All header entries of the publish operations in a channel-call trace. -/
def publishHeaders : List ChannelOp → List (String × Nat)
  | [] => []
  | ChannelOp.sendToQueue _ _ o :: rest => o.headers ++ publishHeaders rest
  | _ :: rest => publishHeaders rest

/-- The first queue declaration of a channel-call trace, with its options. -/
def firstAssertQueue : List ChannelOp → Option (String × AssertQueueOpts)
  | [] => none
  | ChannelOp.assertQueue n o :: _ => some (n, o)
  | _ :: rest => firstAssertQueue rest

/-- The first publish of a channel-call trace: target queue, payload and
options. -/
def firstPublish : List ChannelOp → Option (String × String × PublishOpts)
  | [] => none
  | ChannelOp.sendToQueue q d o :: _ => some (q, d, o)
  | _ :: rest => firstPublish rest

/-- A channel call that transits a delay queue: declaring a queue or publishing
into one. -/
def isDelayOp : ChannelOp → Bool
  | ChannelOp.assertQueue _ _ => true
  | ChannelOp.sendToQueue _ _ _ => true
  | _ => false

/-- A channel call that registers a consumer. -/
def isConsumeOp : ChannelOp → Bool
  | ChannelOp.consume _ => true
  | _ => false

/-- Modelled from the spec: the externally supplied backoff sequence of the
spec scenario, `[5, 15, 60]` seconds, indexed by attempt number (1-based) and
clamped to the last entry; `getRetrySequence` lives in
`src/oracle/src/utils/utils.js`, which is not among the provided sources. -/
def paymentsBackoff (count : Nat) : Nat :=
  [5, 15, 60].getD (count - 1) 60

/-- A message as the broker tracks it: delivery tag plus body. -/
structure Message where
  tag : Nat
  body : String
  deriving DecidableEq, Repr

/-- The broker-side view of one work queue: `ready` messages awaiting
delivery (head delivered first) and `unacked` delivered-but-unacknowledged
messages, in delivery order. -/
structure QueueState where
  ready : List Message
  unacked : List Message
  deriving DecidableEq, Repr

/-- The unacknowledged messages a `nack tag allUpTo` targets per AMQP 0-9-1:
with `allUpTo` every message delivered up to and including `tag`, otherwise
just the message with that tag. -/
def nackTargets (unacked : List Message) (tag : Nat) (allUpTo : Bool) :
    List Message :=
  if allUpTo then
    match unacked.findIdx? (fun m => m.tag == tag) with
    | some i => unacked.take (i + 1)
    | none => []
  else
    unacked.filter (fun m => m.tag == tag)

/-- The unacknowledged messages remaining after a `nack tag allUpTo`. -/
def nackRemaining (unacked : List Message) (tag : Nat) (allUpTo : Bool) :
    List Message :=
  if allUpTo then
    match unacked.findIdx? (fun m => m.tag == tag) with
    | some i => unacked.drop (i + 1)
    | none => unacked
  else
    unacked.filter (fun m => m.tag != tag)

/-- AMQP 0-9-1 broker semantics (the spec's external interface) for the
acknowledgement calls: `ack` settles the tagged message, removing it for good;
`nack` with `requeue` puts the targeted messages back at the front of the
queue for immediate redelivery, and without `requeue` discards them. Topology
and publish calls do not touch this queue's state. -/
def runOp (s : QueueState) : ChannelOp → QueueState
  | ChannelOp.ack tag =>
      { s with unacked := s.unacked.filter (fun m => m.tag != tag) }
  | ChannelOp.nack tag allUpTo requeue =>
      { ready :=
          if requeue then nackTargets s.unacked tag allUpTo ++ s.ready
          else s.ready,
        unacked := nackRemaining s.unacked tag allUpTo }
  | _ => s

theorem filter_tag_eq_singleton {l : List Message} {m : Message}
    (hmem : m ∈ l) (huniq : (l.map Message.tag).Nodup) :
    l.filter (fun x => x.tag == m.tag) = [m] := by
  induction l with
  | nil => cases hmem
  | cons a t ih =>
    simp only [List.map_cons, List.nodup_cons, List.mem_map] at huniq
    rcases List.mem_cons.mp hmem with h | h
    · subst h
      have ht : t.filter (fun x => x.tag == m.tag) = [] := by
        refine List.filter_eq_nil_iff.mpr (fun x hx => ?_)
        simp only [beq_iff_eq]
        intro hxa
        exact huniq.1 ⟨x, hx, hxa⟩
      simp [List.filter_cons, ht]
    · have hne : a.tag ≠ m.tag := by
        intro heq
        exact huniq.1 ⟨m, h, heq.symm⟩
      have := ih h huniq.2
      simp [List.filter_cons, hne, this]

/-- C1 (amended: the header key is the literal `x-retries`, not `retries`).
For every payload `data` and retry count `n ≥ 0`, `scheduleRetry(data, n)`
computes `nextRetryCount = n + 1` and `delayMillis = backoff(n+1) * 1000`,
and publishes `data` as a durable message into the retry queue whose name is
deterministically derived from the work queue name and `delayMillis`, with
header `x-retries = nextRetryCount`. -/
theorem generateRetry_schedule (backoff : Nat → Nat) (data : String) (n : Nat)
    (queueName dlx : String) :
    generateRetry backoff data n queueName dlx =
      [ ChannelOp.assertQueue
          (queueName ++ "-retry-" ++ toString (backoff (n + 1) * 1000))
          { durable := true
            deadLetterExchange := some dlx
            messageTtl := some (backoff (n + 1) * 1000)
            expires := some (backoff (n + 1) * 1000 * 10) },
        ChannelOp.sendToQueue
          (queueName ++ "-retry-" ++ toString (backoff (n + 1) * 1000)) data
          { persistent := true
            headers := [("x-retries", n + 1)] } ] := rfl

/-- C1 counterexample: with a constant 5-second backoff, payload `"msg"` and
retry count 0 on work queue `"payments"`, the republished message's header map
is `[("x-retries", 1)]` and does not contain the key `retries` the claim
names. -/
theorem generateRetry_header_key_counterexample :
    publishHeaders
        (generateRetry (fun _ => 5) "msg" 0 "payments" "payments-retry") =
      [("x-retries", 1)] ∧
    ("retries", 1) ∉ publishHeaders
        (generateRetry (fun _ => 5) "msg" 0 "payments" "payments-retry") := by
  constructor
  · rfl
  · decide

/-- C2 (amended: the message carries header `x-retries = 1`, not `retries`).
Every retry declares its delay-keyed queue durable, dead-lettering into the
shared exchange, with per-message TTL equal to the delay and queue expiry
ten times the delay; for work queue `"payments"` with backoff sequence
`[5, 15, 60]` seconds, `scheduleRetry(msg, 0)` declares queue
`"payments-retry-5000"` with TTL 5000 ms and expiry 50000 ms and the message
carries header `x-retries = 1`. -/
theorem generateRetry_payments_scenario :
    (∀ (backoff : Nat → Nat) (data : String) (n : Nat) (qn dlx : String),
      firstAssertQueue (generateRetry backoff data n qn dlx) =
        some (qn ++ "-retry-" ++ toString (backoff (n + 1) * 1000),
          { durable := true
            deadLetterExchange := some dlx
            messageTtl := some (backoff (n + 1) * 1000)
            expires := some (backoff (n + 1) * 1000 * 10) })) ∧
    generateRetry paymentsBackoff "msg" 0 "payments"
        (deadLetterExchangeName "payments") =
      [ ChannelOp.assertQueue "payments-retry-5000"
          { durable := true
            deadLetterExchange := some "payments-retry"
            messageTtl := some 5000
            expires := some 50000 },
        ChannelOp.sendToQueue "payments-retry-5000" "msg"
          { persistent := true
            headers := [("x-retries", 1)] } ] := by
  exact ⟨fun backoff data n qn dlx => rfl, rfl⟩

/-- C2 counterexample: in the spec's own scenario (`"payments"`,
backoff `[5, 15, 60]`, retry count 0), the published message's header map does
not contain the key `retries`; the retry count travels under `x-retries`. -/
theorem payments_scenario_header_counterexample :
    ("retries", 1) ∉ publishHeaders
        (generateRetry paymentsBackoff "msg" 0 "payments"
          (deadLetterExchangeName "payments")) ∧
    ("x-retries", 1) ∈ publishHeaders
        (generateRetry paymentsBackoff "msg" 0 "payments"
          (deadLetterExchangeName "payments")) := by
  constructor <;> decide

/-- C3: `scheduleTransactionResend(data)` uses the single fixed queue
`<workQueue>-check-tx-status` with per-message TTL `TRANSACTION_RESEND_TIMEOUT`
and queue expiry ten times that, never attaches a retries header to the
published message, and the capability is handed out only by the Sender role's
consumer callback, not the Worker role's. -/
theorem generateTransactionResend_spec (resendTimeout : Nat)
    (data qn dlx : String) :
    generateTransactionResend resendTimeout data qn dlx =
      [ ChannelOp.assertQueue (qn ++ "-check-tx-status")
          { durable := true
            deadLetterExchange := some dlx
            messageTtl := some resendTimeout
            expires := some (resendTimeout * 10) },
        ChannelOp.sendToQueue (qn ++ "-check-tx-status") data
          { persistent := true
            headers := [] } ] ∧
    publishHeaders (generateTransactionResend resendTimeout data qn dlx)
      = [] ∧
    "scheduleTransactionResend" ∈ senderCbKeys ∧
    "scheduleTransactionResend" ∉ workerCbKeys := by
  refine ⟨rfl, rfl, ?_, ?_⟩ <;> decide

/-- C10: the republished retry message's header map contains exactly the one
key `x-retries` (not `retries`) mapped to the incremented retry count, and the
publish options are exactly persistence plus that single header; nothing else
from the original message is propagated. -/
theorem retry_publish_headers_exact (backoff : Nat → Nat) (data : String)
    (n : Nat) (qn dlx : String) :
    firstPublish (generateRetry backoff data n qn dlx) =
      some (qn ++ "-retry-" ++ toString (backoff (n + 1) * 1000), data,
        { persistent := true
          headers := [("x-retries", n + 1)] }) ∧
    publishHeaders (generateRetry backoff data n qn dlx)
      = [("x-retries", n + 1)] :=
  ⟨rfl, rfl⟩

/-- C4: the `nackMsg` capability negatively acknowledges exactly the one
delivered message (the `allUpTo` flag is false) with the requeue flag true, so
that message returns to the front of the queue for immediate redelivery and
every other unacknowledged message is untouched; the capability emits no
delay-queue operation; `ackMsg` permanently removes the message. -/
theorem nack_requeues_single_message (s : QueueState) (m : Message)
    (hmem : m ∈ s.unacked)
    (huniq : (s.unacked.map Message.tag).Nodup) :
    nackMsg m.tag = ChannelOp.nack m.tag false true ∧
    isDelayOp (nackMsg m.tag) = false ∧
    isDelayOp (ackMsg m.tag) = false ∧
    (runOp s (nackMsg m.tag)).ready = m :: s.ready ∧
    (runOp s (nackMsg m.tag)).unacked
      = s.unacked.filter (fun x => x.tag != m.tag) ∧
    m ∉ (runOp s (ackMsg m.tag)).unacked ∧
    (runOp s (ackMsg m.tag)).ready = s.ready := by
  have htargets : nackTargets s.unacked m.tag false = [m] := by
    simpa [nackTargets] using filter_tag_eq_singleton hmem huniq
  refine ⟨rfl, rfl, rfl, ?_, rfl, ?_, rfl⟩
  · simp [runOp, nackMsg, htargets]
  · simp [runOp, ackMsg, List.mem_filter]

/-- Witness for C4 at the concrete state with messages tagged 1 and 2 both
unacknowledged and message 1 nacked or acked. -/
theorem nack_requeues_single_message_witness :
    (Message.mk 1 "a"
        ∈ (QueueState.mk [] [Message.mk 1 "a", Message.mk 2 "b"]).unacked) ∧
    (((QueueState.mk [] [Message.mk 1 "a", Message.mk 2 "b"]).unacked.map
        Message.tag).Nodup) ∧
    (nackMsg (Message.mk 1 "a").tag
        = ChannelOp.nack (Message.mk 1 "a").tag false true ∧
     isDelayOp (nackMsg (Message.mk 1 "a").tag) = false ∧
     isDelayOp (ackMsg (Message.mk 1 "a").tag) = false ∧
     (runOp (QueueState.mk [] [Message.mk 1 "a", Message.mk 2 "b"])
         (nackMsg (Message.mk 1 "a").tag)).ready
       = Message.mk 1 "a"
           :: (QueueState.mk [] [Message.mk 1 "a", Message.mk 2 "b"]).ready ∧
     (runOp (QueueState.mk [] [Message.mk 1 "a", Message.mk 2 "b"])
         (nackMsg (Message.mk 1 "a").tag)).unacked
       = (QueueState.mk [] [Message.mk 1 "a", Message.mk 2 "b"]).unacked.filter
           (fun x => x.tag != (Message.mk 1 "a").tag) ∧
     Message.mk 1 "a"
       ∉ (runOp (QueueState.mk [] [Message.mk 1 "a", Message.mk 2 "b"])
           (ackMsg (Message.mk 1 "a").tag)).unacked ∧
     (runOp (QueueState.mk [] [Message.mk 1 "a", Message.mk 2 "b"])
         (ackMsg (Message.mk 1 "a").tag)).ready
       = (QueueState.mk [] [Message.mk 1 "a", Message.mk 2 "b"]).ready) :=
  ⟨by decide, by decide,
   nack_requeues_single_message
     (QueueState.mk [] [Message.mk 1 "a", Message.mk 2 "b"])
     (Message.mk 1 "a") (by decide) (by decide)⟩

/-- C5: `isAttached()` returns false when no connection URL is configured
(fails closed), and with a configured, parseable URL it returns exactly
whether DNS resolution of the URL's host succeeded. -/
theorem isAttached_dns_probe (parseHostname : String → Option String)
    (dnsLookupOk : String → Bool) (u host : String)
    (hu : u ≠ "") (hp : parseHostname u = some host) :
    isAttached none parseHostname dnsLookupOk = Except.ok false ∧
    isAttached (some u) parseHostname dnsLookupOk
      = Except.ok (dnsLookupOk host) := by
  refine ⟨rfl, ?_⟩
  simp [isAttached, hu, hp]

/-- Witness for C5 with URL `"amqp://broker"`, a parser resolving it to host
`"broker"`, and a DNS oracle that succeeds. -/
theorem isAttached_dns_probe_witness :
    ("amqp://broker" ≠ "") ∧
    ((fun _ => some "broker") "amqp://broker" = some "broker") ∧
    (isAttached none (fun _ => some "broker") (fun _ => true)
        = Except.ok false ∧
     isAttached (some "amqp://broker") (fun _ => some "broker") (fun _ => true)
        = Except.ok ((fun _ => true) "broker")) :=
  ⟨by decide, rfl,
   isAttached_dns_probe (fun _ => some "broker") (fun _ => true)
     "amqp://broker" "broker" (by decide) rfl⟩

/-- C9: when the connection URL is set but not parseable, `isAttached()` does
not fail closed: the URL parse throws before the DNS probe, so the call
rejects with an exception (for every DNS oracle) instead of returning
false. -/
theorem isAttached_invalid_url_throws (parseHostname : String → Option String)
    (dnsLookupOk : String → Bool) (u : String)
    (hu : u ≠ "") (hp : parseHostname u = none) :
    isAttached (some u) parseHostname dnsLookupOk
      = Except.error "Invalid URL" ∧
    isAttached (some u) parseHostname dnsLookupOk ≠ Except.ok false := by
  have h : isAttached (some u) parseHostname dnsLookupOk
      = Except.error "Invalid URL" := by
    simp [isAttached, hu, hp]
  exact ⟨h, by simp [h]⟩

/-- Witness for C9 with the unparseable URL `"::::"` and a parser that rejects
everything. -/
theorem isAttached_invalid_url_throws_witness :
    ("::::" ≠ "") ∧
    ((fun _ => (none : Option String)) "::::" = none) ∧
    (isAttached (some "::::") (fun _ => none) (fun _ => true)
        = Except.error "Invalid URL" ∧
     isAttached (some "::::") (fun _ => none) (fun _ => true)
        ≠ Except.ok false) :=
  ⟨by decide, rfl,
   isAttached_invalid_url_throws (fun _ => none) (fun _ => true) "::::"
     (by decide) rfl⟩

/-- C6: two `scheduleRetry` calls on the same work queue whose computed delays
are equal derive the same retry-queue name and declare it with identical
parameters (same durability, TTL, expiry and dead-letter exchange), so the
same physical queue is reused without a conflicting declaration. -/
theorem retry_queue_reuse_same_delay (backoff : Nat → Nat)
    (data1 data2 : String) (n1 n2 : Nat) (qn dlx : String)
    (h : backoff (n1 + 1) * 1000 = backoff (n2 + 1) * 1000) :
    firstAssertQueue (generateRetry backoff data1 n1 qn dlx)
      = firstAssertQueue (generateRetry backoff data2 n2 qn dlx) := by
  simp [generateRetry, firstAssertQueue, h]

/-- Witness for C6: a constant 5-second backoff makes the delays of retry
counts 0 and 3 equal, so both calls target the same declaration. -/
theorem retry_queue_reuse_same_delay_witness :
    ((fun _ => 5 : Nat → Nat) (0 + 1) * 1000
        = (fun _ => 5 : Nat → Nat) (3 + 1) * 1000) ∧
    firstAssertQueue (generateRetry (fun _ => 5) "a" 0 "payments" "payments-retry")
      = firstAssertQueue
          (generateRetry (fun _ => 5) "b" 3 "payments" "payments-retry") :=
  ⟨rfl,
   retry_queue_reuse_same_delay (fun _ => 5) "a" "b" 0 3 "payments"
     "payments-retry" rfl⟩

/-- C7: the Sender role's setup declares the durable fanout dead-letter
exchange `<queueName>-retry`, the durable work queue, binds queue to exchange
and sets prefetch 1; the Worker role's setup does the same, additionally
declares the durable sender queue, and its consumer callback hands the handler
a `sendToSenderQueue` capability but no resend capability. -/
theorem sender_worker_topology (qn sq : String) :
    connectSenderToQueueSetup qn =
      [ ChannelOp.assertExchange (qn ++ "-retry") "fanout" true,
        ChannelOp.assertQueue qn { durable := true },
        ChannelOp.bindQueue qn (qn ++ "-retry"),
        ChannelOp.prefetch 1,
        ChannelOp.consume qn ] ∧
    connectWorkerToQueueSetup qn sq =
      [ ChannelOp.assertExchange (qn ++ "-retry") "fanout" true,
        ChannelOp.assertQueue qn { durable := true },
        ChannelOp.assertQueue sq { durable := true },
        ChannelOp.bindQueue qn (qn ++ "-retry"),
        ChannelOp.prefetch 1,
        ChannelOp.consume qn ] ∧
    (∀ data : String,
      workerSendToSenderQueue sq data =
        ChannelOp.sendToQueue sq data { persistent := true, headers := [] }) ∧
    "sendToSenderQueue" ∈ workerCbKeys ∧
    "sendToSenderQueue" ∉ senderCbKeys ∧
    "scheduleTransactionResend" ∉ workerCbKeys := by
  refine ⟨rfl, rfl, fun data => rfl, ?_, ?_, ?_⟩ <;> decide

/-- C8: the Watcher role declares the target queue durable — and the worker
queue too when one is supplied — and returns `sendToQueue` plus, only when a
worker queue was supplied, `sendToWorker`, each publishing its payload
persistently to its respective queue; the watcher registers no consumer. -/
theorem watcher_producer_spec (qn w data : String) :
    connectWatcherToQueueSetup qn none =
      [ChannelOp.assertQueue qn { durable := true }] ∧
    connectWatcherToQueueSetup qn (some w) =
      [ ChannelOp.assertQueue qn { durable := true },
        ChannelOp.assertQueue w { durable := true } ] ∧
    watcherSendToQueue qn data =
      ChannelOp.sendToQueue qn data { persistent := true, headers := [] } ∧
    watcherSendToWorker none = none ∧
    watcherSendToWorker (some w) =
      some (fun d =>
        ChannelOp.sendToQueue w d { persistent := true, headers := [] }) ∧
    (connectWatcherToQueueSetup qn none).all
      (fun op => !(isConsumeOp op)) = true ∧
    (connectWatcherToQueueSetup qn (some w)).all
      (fun op => !(isConsumeOp op)) = true :=
  ⟨rfl, rfl, rfl, rfl, rfl, rfl, rfl⟩

end AmqpClient
